import Mathlib

/-!
Verification of the TripLogger core (src/main.py) against its design
specification.  The CSV handling, the settings store and the
single-instance guard are embedded shallowly below; each definition is a
direct translation of the corresponding Python function.  The GUI layer
(windows, dialogs, tray icon) is not modelled: the claims under study
only concern the pure core and its filesystem effects.

Modelling conventions:

* A CSV file is modelled as the sequence of its records, each record the
  list of its fields, exactly as produced by the Python csv reader and
  consumed by the csv writer.  Byte-level details (quoting, line
  terminators, byte offsets inside an open handle) are below this
  abstraction; where the source program depends on them the doc comment
  of the embedded definition spells out the behaviour that was modelled.
* The filesystem is a pair of the set of existing directories and a
  finite map from path to file content; `os.makedirs` with exist_ok
  simply inserts the directory.  Creation of intermediate ancestor
  directories is collapsed into the single inserted entry, since no
  claim observes individual ancestors.
* Each filesystem-touching operation additionally returns the trace of
  the directory creations and file opens it performed, in program order,
  with the open mode recorded.  This makes claims about which opens
  happen (and in which mode) directly statable.
-/

/-- One CSV record: the list of its fields. -/
abbrev CsvRow := List String

/-- A CSV file: the sequence of its records. -/
abbrev CsvFile := List CsvRow

/-- Replace the binding of key `p` in an association list, or add it at the
end when absent. -/
def setAssoc : List (String × CsvFile) → String → CsvFile → List (String × CsvFile)
  | [], p, c => [(p, c)]
  | e :: rest, p, c => if e.1 = p then (p, c) :: rest else e :: setAssoc rest p c

/-- Filesystem state: the existing directories and the existing files with
their CSV-record content.  A path absent from `files` is a file that does
not exist. -/
structure FS where
  dirs : List String
  files : List (String × CsvFile)
deriving Repr, DecidableEq

/-- Model of os.makedirs with exist_ok set: insert the directory if it is
not already present. -/
def FS.makedirs (fs : FS) (d : String) : FS :=
  { fs with dirs := if fs.dirs.contains d then fs.dirs else d :: fs.dirs }

/-- Overwrite (or create) the file at `p` with content `c`. -/
def FS.setFile (fs : FS) (p : String) (c : CsvFile) : FS :=
  { fs with files := setAssoc fs.files p c }

/-- Model of os.path.dirname with POSIX separators: the part of the path
before the final slash, with trailing slashes stripped unless the result
consists only of slashes; the empty string when the path has no slash. -/
def dirname (p : String) : String :=
  let cs := p.toList
  match cs.reverse.findIdx? (fun c => c = '/') with
  | none => ""
  | some j =>
    let head := cs.take (cs.length - j)
    if head.all (fun c => c = '/') then String.mk head
    else String.mk ((head.reverse.dropWhile (fun c => c = '/')).reverse)

/-- The open modes used by the program: mode w, mode r+ and mode a. -/
inductive FileMode where
  | write
  | readPlus
  | append
deriving Repr, DecidableEq

/-- A filesystem event: a directory creation or a file open in a given
mode. -/
inductive Ev where
  | mkdirs (d : String)
  | openFile (p : String) (m : FileMode)
deriving Repr, DecidableEq

/-- Whether an event is a file open in append mode. -/
def Ev.isAppendOpen : Ev → Bool
  | Ev.openFile _ FileMode.append => true
  | _ => false

/-- The LOCATIONS catalog of src/main.py: predefined locations with their
fixed mileage strings. -/
def LOCATIONS : List (String × String) :=
  [("505", "5"), ("Baker", "1"), ("Edwards", "1"), ("HR", "1"), ("Buckeye", "7")]

/-- The 4-column header row written by the current revision. -/
def NEW_HEADER : CsvRow := ["Date", "Location", "Miles", "Trip Reason"]

/-- Python str.lower, modelled character by character.  Python lowercases
the full Unicode range; Char.toLower lowercases the ASCII range, which
covers every comparison the program performs. -/
def pyLower (s : String) : String := String.mk (s.toList.map Char.toLower)

/-- The header test of initialize_csv (src/main.py line 86): the file is
rewritten when the header has fewer than 4 fields or its fourth field,
lowercased, is not "trip reason". -/
def headerNeedsRewrite (header : CsvRow) : Bool :=
  if header.length < 4 then true
  else pyLower (header.getD 3 "") != "trip reason"

/-- The per-row fixup of the migration loop (src/main.py lines 94-100): a
3-field row gains an empty reason field, a row with 4 or more fields is cut
to its first 4, and a shorter row is padded with empty fields up to 4. -/
def fixRow (row : CsvRow) : CsvRow :=
  if row.length = 3 then row ++ [""]
  else if 4 ≤ row.length then row.take 4
  else row ++ List.replicate (4 - row.length) ""

/-- Result of initialize_csv: the returned boolean, the filesystem after
the call, and the trace of filesystem events performed. -/
structure InitOut where
  ok : Bool
  fs : FS
  tr : List Ev
deriving Repr, DecidableEq

/-- Model of initialize_csv (src/main.py lines 58-111).

An empty filename returns False at once, with no filesystem effect.
Otherwise the parent directory, when non-empty, is created.  A missing
file is created in mode w with the 4-column header as its only record.
An existing file is opened in mode r+; an empty file receives the header;
a file whose first record fails `headerNeedsRewrite` is left untouched;
otherwise the file is rewritten.

Two behaviours of the rewrite branch were confirmed against Python
semantics and are modelled faithfully at the record level:

* The source calls file.seek(0) before `rows = list(reader)`.  Seeking a
  text file resets its line iterator, so the csv reader restarts at the
  beginning of the file and `rows` contains the header record again,
  followed by the data records.  The rewritten record stream is therefore
  the new header, then the fixup of the OLD HEADER, then the fixups of
  the data records.
* The source calls file.truncate(0) with the read position still at the
  end of the file and never seeks back, so the records above are in fact
  written after a gap of NUL bytes the size of the original file.  This
  byte-level artefact is below the record abstraction used here; the
  record stream modelled is the sequence of records passed to the csv
  writer.

IOError handling (the False-returning except branches) is not modelled:
the embedded filesystem has no permission failures. -/
def init_csv (filename : String) (fs : FS) : InitOut :=
  if filename = "" then ⟨false, fs, []⟩
  else
    let directory := dirname filename
    let fs1 := if directory ≠ "" then fs.makedirs directory else fs
    let tr1 : List Ev := if directory ≠ "" then [Ev.mkdirs directory] else []
    match fs1.files.lookup filename with
    | none =>
      ⟨true, fs1.setFile filename [NEW_HEADER], tr1 ++ [Ev.openFile filename FileMode.write]⟩
    | some content =>
      let tr2 := tr1 ++ [Ev.openFile filename FileMode.readPlus]
      match content with
      | [] => ⟨true, fs1.setFile filename [NEW_HEADER], tr2⟩
      | header :: _rest =>
        if headerNeedsRewrite header then
          ⟨true, fs1.setFile filename (NEW_HEADER :: content.map fixRow), tr2⟩
        else
          ⟨true, fs1, tr2⟩

/-- The error raised by add_trip_record on an unknown location. -/
inductive TripErr where
  | keyError (k : String)
deriving Repr, DecidableEq

/-- Result of add_trip_record: the raised error if any, the filesystem
after the call, and the trace of filesystem events performed. -/
structure AddOut where
  err : Option TripErr
  fs : FS
  tr : List Ev
deriving Repr, DecidableEq

/-- Model of add_trip_record (src/main.py lines 115-127).  The entry is
built first; the lookup `LOCATIONS[location]` raises KeyError before the
file is opened, so on that path the filesystem is untouched and the trace
is empty.  On success the file is opened in mode a and the single record
[date, location, catalog miles, reason] is appended; the current date
string produced by datetime.now is passed in as `now`.  Mode a creates
the file when it is missing, hence the getD with the empty file. -/
def add_trip_record (now location trip_reason file_path : String) (fs : FS) : AddOut :=
  match LOCATIONS.lookup location with
  | none => ⟨some (TripErr.keyError location), fs, []⟩
  | some miles =>
    let entry : CsvRow := [now, location, miles, trip_reason]
    let old := (fs.files.lookup file_path).getD []
    ⟨none, fs.setFile file_path (old ++ [entry]), [Ev.openFile file_path FileMode.append]⟩

/-- One predefined-trip call: the date string, the location and the trip
reason. -/
abbrev TripCall := String × String × String

/-- The record that a successful add_trip_record call writes. -/
def tripEntry (c : TripCall) : CsvRow :=
  [c.1, c.2.1, (LOCATIONS.lookup c.2.1).getD "", c.2.2]

/-- Run a sequence of add_trip_record calls against one data file,
threading the filesystem. -/
def run_appends (file_path : String) (fs : FS) : List TripCall → FS
  | [] => fs
  | c :: rest => run_appends file_path (add_trip_record c.1 c.2.1 c.2.2 file_path fs).fs rest

/-- The settings store holds the one persisted value, the dataFilePath
key: `none` when the key was never written. -/
abbrev Settings := Option String

/-- Model of save_data_file_path (src/main.py lines 46-49): a falsy path
(None or the empty string) stores the empty string, anything else stores
the string itself. -/
def save_data_file_path (path : Option String) (_st : Settings) : Settings :=
  some (match path with
        | some s => if s = "" then "" else s
        | none => "")

/-- Model of load_data_file_path (src/main.py lines 51-55): a missing or
falsy stored value yields None, anything else the stored string. -/
def load_data_file_path (st : Settings) : Option String :=
  match st with
  | none => none
  | some v => if v = "" then none else some v

/-- The shared-memory key of src/main.py line 19. -/
def SHARED_MEM_KEY : String :=
  "Mariani Nut Co - Brandon Tytler_TripLogger_InstanceLock"

/-- A side effect of the startup guard: a line printed to stdout or a
critical message dialog.  The guard block of src/main.py (lines 381-400)
performs no file or settings writes, so the effect type has no such
constructor. -/
inductive StartEff where
  | printOut (msg : String)
  | criticalDialog (title : String)
deriving Repr, DecidableEq

/-- Outcome of the startup guard: exit with a code, or proceed into the
application. -/
inductive StartRes where
  | exitCode (n : Nat)
  | proceed
deriving Repr, DecidableEq

/-- Result of the startup guard: the outcome, the shared-segment registry
afterwards, and the side effects performed. -/
structure StartOut where
  res : StartRes
  segs : List String
  effs : List StartEff
deriving Repr, DecidableEq

/-- Model of the single-instance guard at the top of the main block
(src/main.py lines 381-400), generalised over the segment key.  The
registry `segs` lists the named shared segments that exist.  Attach in
read-only mode succeeds exactly when the segment exists: the program then
prints a line and exits with code 0, touching nothing.  Otherwise
create(1) adds the segment and the program proceeds; create can only fail
when the segment exists, which the attach branch has excluded, so the
fatal dialog-and-exit(1) branch is unreachable in this model. -/
def instance_acquire (key : String) (segs : List String) : StartOut :=
  if segs.contains key then
    ⟨StartRes.exitCode 0, segs,
      [StartEff.printOut "Another instance is already running. Exiting."]⟩
  else
    ⟨StartRes.proceed, key :: segs, []⟩

/-- The guard as instantiated by the program itself. -/
def main_guard (segs : List String) : StartOut :=
  instance_acquire SHARED_MEM_KEY segs

/-! ## Helper lemmas -/

theorem lookup_setAssoc_self (l : List (String × CsvFile)) (p : String) (c : CsvFile) :
    List.lookup p (setAssoc l p c) = some c := by
  induction l with
  | nil => simp [setAssoc, List.lookup]
  | cons e tl ih =>
    by_cases h : e.1 = p
    · simp [setAssoc, h, List.lookup]
    · have h2 : (p == e.1) = false := by
        exact beq_eq_false_iff_ne.mpr (fun hpe => h hpe.symm)
      simp [setAssoc, h, List.lookup, h2, ih]

theorem makedirs_files (fs : FS) (d : String) : (fs.makedirs d).files = fs.files := rfl

theorem setFile_dirs (fs : FS) (p : String) (c : CsvFile) : (fs.setFile p c).dirs = fs.dirs := rfl

theorem makedirs_stable (fs : FS) (d : String) :
    (fs.makedirs d).makedirs d = fs.makedirs d := by
  unfold FS.makedirs
  by_cases h : d ∈ fs.dirs <;> simp [h]

theorem fixRow_length (row : CsvRow) : (fixRow row).length = 4 := by
  unfold fixRow
  split
  · rename_i h3
    simp [h3]
  · rename_i h3
    split
    · rename_i h4
      rw [List.length_take]
      omega
    · rename_i h4
      rw [List.length_append, List.length_replicate]
      omega

theorem fixRow_pad_or_trunc (row : CsvRow) :
    fixRow row =
      if 4 ≤ row.length then row.take 4
      else row ++ List.replicate (4 - row.length) "" := by
  unfold fixRow
  split
  · rename_i h3
    rw [if_neg (by omega)]
    simp [h3]
  · rfl

/-! ## Claim theorems -/

def fsC1 : FS :=
  ⟨[], [("trips.csv", [["Date", "Location", "Number"], ["2023-01-01", "Buckeye", "7"]])]⟩

/-- C1: evaluation of the embedded initialize_csv on the exact scenario of
the claim: an existing file with the 3-column header and one data row.
The call does report a migration (it returns True having rewritten the
file), but the record stream written is the new header followed by TWO
data records, not one: the old header, re-read after file.seek(0),
reappears as the first data record padded with an empty field.  The claim
promises exactly N data rows whose first 3 columns match the original
rows, which fails here (N = 1, result has 2). -/
theorem init_csv_migration_reemits_header :
    (init_csv "trips.csv" fsC1).ok = true ∧
    (init_csv "trips.csv" fsC1).fs.files.lookup "trips.csv" =
      some [["Date", "Location", "Miles", "Trip Reason"],
            ["Date", "Location", "Number", ""],
            ["2023-01-01", "Buckeye", "7", ""]] ∧
    (((init_csv "trips.csv" fsC1).fs.files.lookup "trips.csv").getD []).length = 3 := by
  decide

/-- C4: the settings round trip.  Saving None then loading yields None;
saving "x.csv" then loading yields "x.csv"; in general loading yields
None exactly when the stored value is missing or the empty string, and
otherwise yields the stored string unchanged. -/
theorem settings_round_trip (st : Settings) :
    load_data_file_path (save_data_file_path none st) = none ∧
    load_data_file_path (save_data_file_path (some "x.csv") st) = some "x.csv" ∧
    (load_data_file_path st = none ↔ st = none ∨ st = some "") ∧
    (∀ v : String, st = some v → v ≠ "" → load_data_file_path st = some v) := by
  refine ⟨by simp [save_data_file_path, load_data_file_path],
          by simp [save_data_file_path, load_data_file_path], ?_, ?_⟩
  · cases st with
    | none => simp [load_data_file_path]
    | some v => by_cases h : v = "" <;> simp [load_data_file_path, h]
  · intro v hv hne
    subst hv
    simp [load_data_file_path, hne]

/-- Witness for C4 at a concrete stored value. -/
theorem settings_round_trip_witness :
    load_data_file_path (some "a.csv") = some "a.csv" :=
  (settings_round_trip (some "a.csv")).2.2.2 "a.csv" rfl (by decide)

/-- C7: initialize_csv on the empty path returns False immediately,
creating no directory and opening no file: the filesystem is returned
unchanged and the event trace is empty. -/
theorem init_csv_empty_path_no_effect (fs : FS) :
    init_csv "" fs = ⟨false, fs, []⟩ := by
  simp [init_csv]

/-- C8: acquiring the instance lock while the same token is already held
exits with code 0 (the silent AlreadyRunning path), leaves the segment
registry unchanged (no second segment is created), and performs only the
stdout print: no dialog and, by construction of the guard block, no file
or settings write. -/
theorem instance_guard_second_acquire (key : String) (segs : List String)
    (h : segs.contains key = true) :
    (instance_acquire key segs).res = StartRes.exitCode 0 ∧
    (instance_acquire key segs).segs = segs ∧
    (instance_acquire key segs).effs =
      [StartEff.printOut "Another instance is already running. Exiting."] := by
  have h2 : key ∈ segs := by
    simpa using h
  simp [instance_acquire, h2]

/-- Witness for C8: a first acquisition of token k, then a second one
against the registry the first one produced. -/
theorem instance_guard_second_acquire_witness :
    (instance_acquire "k" ((instance_acquire "k" []).segs)).res = StartRes.exitCode 0 ∧
    (instance_acquire "k" ((instance_acquire "k" []).segs)).segs = (instance_acquire "k" []).segs ∧
    (instance_acquire "k" ((instance_acquire "k" []).segs)).effs =
      [StartEff.printOut "Another instance is already running. Exiting."] :=
  instance_guard_second_acquire "k" ((instance_acquire "k" []).segs) (by decide)

/-- C9: add_trip_record on a location outside the LOCATIONS catalog
raises KeyError before the file is opened: the filesystem is returned
unchanged and the event trace is empty (no append-mode open happened).
On a known location the appended record takes its miles field from the
catalog entry, never from user input. -/
theorem add_trip_record_keyerror_atomic (now location trip_reason file_path : String) (fs : FS) :
    (LOCATIONS.lookup location = none →
      add_trip_record now location trip_reason file_path fs =
        ⟨some (TripErr.keyError location), fs, []⟩) ∧
    (∀ miles : String, LOCATIONS.lookup location = some miles →
      (add_trip_record now location trip_reason file_path fs).err = none ∧
      (add_trip_record now location trip_reason file_path fs).fs =
        fs.setFile file_path
          (((fs.files.lookup file_path).getD []) ++ [[now, location, miles, trip_reason]])) := by
  constructor
  · intro h
    simp [add_trip_record, h]
  · intro miles h
    simp [add_trip_record, h]

/-- Witness for C9: the location Zoo is not in the catalog, so the call
errors and touches nothing. -/
theorem add_trip_record_keyerror_atomic_witness :
    add_trip_record "2024-01-01" "Zoo" "errand" "t.csv" (FS.mk [] []) =
      ⟨some (TripErr.keyError "Zoo"), FS.mk [] [], []⟩ :=
  (add_trip_record_keyerror_atomic "2024-01-01" "Zoo" "errand" "t.csv" (FS.mk [] [])).1
    (by decide)

def fsC5 : FS := ⟨[], [("t.csv", [["Date", "Location", "Miles", "Trip Reason"], ["a", "b"]])]⟩

/-- C5 counterexample: an existing file whose header is already the
current 4-column header but which contains a 2-field data row.  A
successful initialize_csv leaves the file untouched, so the short data
row survives with 2 fields, against the claim that after any successful
call every data row has exactly 4 columns. -/
theorem init_csv_unchanged_keeps_short_row :
    (init_csv "t.csv" fsC5).ok = true ∧
    (init_csv "t.csv" fsC5).fs.files.lookup "t.csv" =
      some [["Date", "Location", "Miles", "Trip Reason"], ["a", "b"]] ∧
    ((((init_csv "t.csv" fsC5).fs.files.lookup "t.csv").getD []).getD 1 []).length ≠ 4 := by
  decide

theorem mem_makedirs_self (fs : FS) (d : String) : d ∈ (fs.makedirs d).dirs := by
  unfold FS.makedirs
  by_cases h : d ∈ fs.dirs <;> simp [h]

theorem makedirs_of_mem (fs : FS) (d : String) (h : d ∈ fs.dirs) : fs.makedirs d = fs := by
  cases fs with
  | mk dirs files => simp [FS.makedirs, h]

theorem ite_makedirs_files (c : Prop) [Decidable c] (fs : FS) (d : String) :
    (if c then fs.makedirs d else fs).files = fs.files := by
  split <;> rfl

theorem ite_files (c : Prop) [Decidable c] (a b : FS) :
    (if c then a else b).files = if c then a.files else b.files := by
  split <;> rfl

theorem new_header_ok : headerNeedsRewrite NEW_HEADER = false := by decide

theorem run_appends_lookup (file_path : String) :
    ∀ (calls : List TripCall) (fs : FS) (content0 : CsvFile),
      (∀ c ∈ calls, (LOCATIONS.lookup c.2.1).isSome = true) →
      fs.files.lookup file_path = some content0 →
      (run_appends file_path fs calls).files.lookup file_path =
        some (content0 ++ calls.map tripEntry) := by
  intro calls
  induction calls with
  | nil =>
    intro fs content0 _hall hc
    simpa [run_appends] using hc
  | cons c rest ih =>
    intro fs content0 hall hc
    have hcsome : (LOCATIONS.lookup c.2.1).isSome = true :=
      hall c (List.mem_cons_self _ _)
    obtain ⟨miles, hm⟩ := Option.isSome_iff_exists.mp hcsome
    have hstep : (add_trip_record c.1 c.2.1 c.2.2 file_path fs).fs.files.lookup file_path =
        some (content0 ++ [tripEntry c]) := by
      simp [add_trip_record, hm, tripEntry, hc, FS.setFile, lookup_setAssoc_self]
    have hrec := ih (add_trip_record c.1 c.2.1 c.2.2 file_path fs).fs (content0 ++ [tripEntry c])
      (fun d hd => hall d (List.mem_cons_of_mem _ hd)) hstep
    simpa [run_appends, List.append_assoc] using hrec

/-- C2: sequential appends.  Starting from a file that satisfies the
current schema (the 4-column header followed by any existing rows), a
sequence of K successful add_trip_record calls leaves the file holding
the header, the pre-existing rows unchanged, and then exactly the K new
records in call order; each new record has exactly the schema column
count of 4.  No record written by an earlier call is mutated: the prior
content reappears verbatim as the front of the final content. -/
theorem add_trip_appends_in_order (file_path : String) (calls : List TripCall)
    (fs : FS) (rows0 : CsvFile)
    (hall : ∀ c ∈ calls, (LOCATIONS.lookup c.2.1).isSome = true)
    (hfile : fs.files.lookup file_path = some (NEW_HEADER :: rows0)) :
    (run_appends file_path fs calls).files.lookup file_path =
      some (NEW_HEADER :: (rows0 ++ calls.map tripEntry)) ∧
    (calls.map tripEntry).length = calls.length ∧
    (∀ c ∈ calls, (tripEntry c).length = 4) := by
  refine ⟨?_, by simp, ?_⟩
  · have h := run_appends_lookup file_path calls fs (NEW_HEADER :: rows0) hall hfile
    simpa using h
  · intro c _hc
    simp [tripEntry]

/-- Witness for C2: two appends against a freshly created file. -/
theorem add_trip_appends_in_order_witness :
    (run_appends "t.csv" (FS.mk [] [("t.csv", [NEW_HEADER])])
        [("2024-01-01", "505", "delivery"), ("2024-01-02", "Buckeye", "meeting")]).files.lookup "t.csv" =
      some (NEW_HEADER :: (([] : CsvFile) ++
        [("2024-01-01", "505", "delivery"), ("2024-01-02", "Buckeye", "meeting")].map tripEntry)) ∧
    ([("2024-01-01", "505", "delivery"), ("2024-01-02", "Buckeye", "meeting")].map tripEntry).length =
      ([("2024-01-01", "505", "delivery"), ("2024-01-02", "Buckeye", "meeting")] : List TripCall).length ∧
    (∀ c ∈ ([("2024-01-01", "505", "delivery"), ("2024-01-02", "Buckeye", "meeting")] : List TripCall),
      (tripEntry c).length = 4) :=
  add_trip_appends_in_order "t.csv"
    [("2024-01-01", "505", "delivery"), ("2024-01-02", "Buckeye", "meeting")]
    (FS.mk [] [("t.csv", [NEW_HEADER])]) [] (by decide) (by decide)

/-- C3: initialize_csv is idempotent on a fresh path.  When the file does
not yet exist, the first call succeeds and creates it with the 4-column
header row as its only record (the Created outcome); an immediately
following second call succeeds as well and leaves the whole filesystem,
file content included, exactly as the first call left it (the Unchanged
outcome).  The source signals both outcomes with the same boolean True;
the branch taken is distinguished here by its filesystem effect. -/
theorem init_csv_idempotent_on_fresh_path (filename : String) (fs : FS)
    (hne : filename ≠ "") (habsent : fs.files.lookup filename = none) :
    (init_csv filename fs).ok = true ∧
    (init_csv filename fs).fs.files.lookup filename = some [NEW_HEADER] ∧
    (init_csv filename (init_csv filename fs).fs).ok = true ∧
    (init_csv filename (init_csv filename fs).fs).fs = (init_csv filename fs).fs := by
  by_cases hd : dirname filename = ""
  · have h1 : init_csv filename fs =
        ⟨true, fs.setFile filename [NEW_HEADER], [Ev.openFile filename FileMode.write]⟩ := by
      simp [init_csv, hne, hd, habsent]
    have hlk : (fs.setFile filename [NEW_HEADER]).files.lookup filename = some [NEW_HEADER] := by
      simp [FS.setFile, lookup_setAssoc_self]
    have h2 : init_csv filename (fs.setFile filename [NEW_HEADER]) =
        ⟨true, fs.setFile filename [NEW_HEADER], [Ev.openFile filename FileMode.readPlus]⟩ := by
      simp [init_csv, hne, hd, hlk, new_header_ok]
    have h1ok : (init_csv filename fs).ok = true := by rw [h1]
    have h1fs : (init_csv filename fs).fs = fs.setFile filename [NEW_HEADER] := by rw [h1]
    refine ⟨h1ok, by rw [h1fs]; exact hlk, ?_, ?_⟩
    · rw [h1fs, h2]
    · rw [h1fs, h2]
  · have h1 : init_csv filename fs =
        ⟨true, (fs.makedirs (dirname filename)).setFile filename [NEW_HEADER],
          [Ev.mkdirs (dirname filename), Ev.openFile filename FileMode.write]⟩ := by
      simp [init_csv, hne, hd, habsent, makedirs_files]
    have hlk : ((fs.makedirs (dirname filename)).setFile filename [NEW_HEADER]).files.lookup
        filename = some [NEW_HEADER] := by
      simp [FS.setFile, lookup_setAssoc_self]
    have hmk : ((fs.makedirs (dirname filename)).setFile filename [NEW_HEADER]).makedirs
        (dirname filename) = (fs.makedirs (dirname filename)).setFile filename [NEW_HEADER] := by
      apply makedirs_of_mem
      exact mem_makedirs_self fs (dirname filename)
    have h2 : init_csv filename ((fs.makedirs (dirname filename)).setFile filename [NEW_HEADER]) =
        ⟨true, (fs.makedirs (dirname filename)).setFile filename [NEW_HEADER],
          [Ev.mkdirs (dirname filename), Ev.openFile filename FileMode.readPlus]⟩ := by
      simp [init_csv, hne, hd, hmk, hlk, new_header_ok]
    have h1ok : (init_csv filename fs).ok = true := by rw [h1]
    have h1fs : (init_csv filename fs).fs =
        (fs.makedirs (dirname filename)).setFile filename [NEW_HEADER] := by rw [h1]
    refine ⟨h1ok, by rw [h1fs]; exact hlk, ?_, ?_⟩
    · rw [h1fs, h2]
    · rw [h1fs, h2]

/-- Witness for C3 at a concrete fresh path with a parent directory. -/
theorem init_csv_idempotent_on_fresh_path_witness :
    (init_csv "d/t.csv" (FS.mk [] [])).ok = true ∧
    (init_csv "d/t.csv" (FS.mk [] [])).fs.files.lookup "d/t.csv" = some [NEW_HEADER] ∧
    (init_csv "d/t.csv" (init_csv "d/t.csv" (FS.mk [] [])).fs).ok = true ∧
    (init_csv "d/t.csv" (init_csv "d/t.csv" (FS.mk [] [])).fs).fs =
      (init_csv "d/t.csv" (FS.mk [] [])).fs :=
  init_csv_idempotent_on_fresh_path "d/t.csv" (FS.mk [] []) (by decide) (by decide)

/-- C5 (amended): the size invariant holds for the files the rewrite
branch processes.  For an existing file whose header triggers the
rewrite, a successful initialize_csv rewrites the file to the new header
followed by the fixups of all the records it read (which, after the
seek, include the old header): exactly as many records as were read, no
record dropped, each resulting record with exactly 4 fields, short
records padded with empty strings and longer ones cut to their first 4
fields.  Files whose header is already current are not rewritten, so no
size invariant is enforced on them (see the counterexample). -/
theorem init_csv_rewrite_row_size_invariant (filename : String) (fs : FS)
    (header : CsvRow) (rest : CsvFile)
    (hne : filename ≠ "")
    (hfile : fs.files.lookup filename = some (header :: rest))
    (htrig : headerNeedsRewrite header = true) :
    (init_csv filename fs).ok = true ∧
    (init_csv filename fs).fs.files.lookup filename =
      some (NEW_HEADER :: (header :: rest).map fixRow) ∧
    ((header :: rest).map fixRow).length = (header :: rest).length ∧
    (∀ row ∈ (header :: rest).map fixRow, row.length = 4) ∧
    (∀ row ∈ header :: rest,
      fixRow row = if 4 ≤ row.length then row.take 4
                   else row ++ List.replicate (4 - row.length) "") := by
  refine ⟨?_, ?_, by simp, ?_, ?_⟩
  · simp [init_csv, hne, ite_files, makedirs_files, hfile, htrig]
  · simp [init_csv, hne, ite_files, makedirs_files, hfile, htrig, FS.setFile,
      lookup_setAssoc_self]
  · intro row hrow
    obtain ⟨r, _hr, rfl⟩ := List.mem_map.mp hrow
    exact fixRow_length r
  · intro row _hrow
    exact fixRow_pad_or_trunc row

/-- Witness for C5: a file with a 3-column header and data rows of
lengths 1, 3 and 5. -/
theorem init_csv_rewrite_row_size_invariant_witness :
    (init_csv "t.csv"
        (FS.mk [] [("t.csv",
          [["Date", "Location", "Number"], ["x"], ["a", "b", "c"],
           ["a", "b", "c", "d", "e"]])])).fs.files.lookup "t.csv" =
      some (NEW_HEADER ::
        ([["Date", "Location", "Number"], ["x"], ["a", "b", "c"],
          ["a", "b", "c", "d", "e"]] : CsvFile).map fixRow) :=
  (init_csv_rewrite_row_size_invariant "t.csv"
    (FS.mk [] [("t.csv",
      [["Date", "Location", "Number"], ["x"], ["a", "b", "c"], ["a", "b", "c", "d", "e"]])])
    ["Date", "Location", "Number"] [["x"], ["a", "b", "c"], ["a", "b", "c", "d", "e"]]
    (by decide) (by decide) (by decide)).2.1

def fsC6 : FS := ⟨["d"], [("d/t.csv", [NEW_HEADER])]⟩

/-- C6 counterexample: on an existing, fully up-to-date file the call
succeeds and its trace contains no append-mode open at all, so no final
liveness check of the claimed form is performed. -/
theorem init_csv_no_liveness_check_example :
    (init_csv "d/t.csv" fsC6).ok = true ∧
    (init_csv "d/t.csv" fsC6).tr.any Ev.isAppendOpen = false := by
  decide

/-- C6 (amended): initialize_csv never opens the file in append mode on
any path and any filesystem: its only opens are the mode-w create of a
missing file and the mode-r+ open of an existing file (whose IOError the
source reports as a File Access Error).  There is no final append-mode
liveness check. -/
theorem init_csv_never_opens_append (filename : String) (fs : FS) :
    (init_csv filename fs).tr.any Ev.isAppendOpen = false := by
  by_cases h0 : filename = ""
  · simp [init_csv, h0]
  · by_cases hd : dirname filename = "" <;>
      (cases hl : fs.files.lookup filename with
       | none => simp [init_csv, h0, hd, makedirs_files, hl, Ev.isAppendOpen]
       | some content =>
         cases content with
         | nil => simp [init_csv, h0, hd, makedirs_files, hl, Ev.isAppendOpen]
         | cons header rest =>
           by_cases ht : headerNeedsRewrite header = true <;>
             simp [init_csv, h0, hd, makedirs_files, hl, ht, Ev.isAppendOpen])

def fsW10 : FS := ⟨[], [("t.csv", [["Date", "Location", "Miles", "TRIP REASON"], ["a", "b"]])]⟩

/-- C10: the header up-to-date test is case-insensitive on the fourth
column.  For an existing non-empty file, when the header row has at
least 4 fields and its fourth field lowercased equals "trip reason", the
call succeeds and performs no rewrite: the file table is left exactly as
it was.  Conversely, when the header has fewer than 4 fields or a
differently-spelled fourth field, the migration rewrite runs and the
file becomes the new header followed by the fixups of the records that
were read. -/
theorem init_csv_header_check_case_insensitive (filename : String) (fs : FS)
    (header : CsvRow) (rest : CsvFile)
    (hne : filename ≠ "")
    (hfile : fs.files.lookup filename = some (header :: rest)) :
    (4 ≤ header.length → pyLower (header.getD 3 "") = "trip reason" →
      (init_csv filename fs).ok = true ∧ (init_csv filename fs).fs.files = fs.files) ∧
    ((header.length < 4 ∨ pyLower (header.getD 3 "") ≠ "trip reason") →
      (init_csv filename fs).fs.files.lookup filename =
        some (NEW_HEADER :: (header :: rest).map fixRow)) := by
  constructor
  · intro h4 hlow
    have hno : headerNeedsRewrite header = false := by
      unfold headerNeedsRewrite
      rw [if_neg (Nat.not_lt.mpr h4), hlow]
      simp
    simp [init_csv, hne, ite_files, makedirs_files, hfile, hno]
  · intro htrig
    have hyes : headerNeedsRewrite header = true := by
      unfold headerNeedsRewrite
      rcases htrig with hlt | hne2
      · rw [if_pos hlt]
      · by_cases hlt : header.length < 4
        · rw [if_pos hlt]
        · rw [if_neg hlt]
          exact bne_iff_ne.mpr hne2
    simp [init_csv, hne, ite_files, makedirs_files, hfile, hyes, FS.setFile,
      lookup_setAssoc_self]

/-- Witness for C10: a header whose fourth field is TRIP REASON in upper
case counts as up to date and the file is not rewritten. -/
theorem init_csv_header_check_case_insensitive_witness :
    (init_csv "t.csv" fsW10).ok = true ∧ (init_csv "t.csv" fsW10).fs.files = fsW10.files :=
  (init_csv_header_check_case_insensitive "t.csv" fsW10
    ["Date", "Location", "Miles", "TRIP REASON"] [["a", "b"]]
    (by decide) (by decide)).1 (by decide) (by decide)
